import Mathlib

/-!
Verification of the identity credential and session store of sercand/dex.

The Go repositories under `src/db/etcd` and `src/db/mongodb` are embedded
shallowly: each repository operation becomes a pure Lean function over an
explicit store value, machine times become `Int` Unix seconds, and the
external cryptographic and encoding libraries (bcrypt, AES, base64url,
JSON marshalling, URL printing/parsing) are taken as abstract function
parameters whose contracts appear as hypotheses of the theorems.

Store layout conventions:
* the etcd key space is an association list `List (String × α)` keyed by the
  node path (here just the entity id, since all nodes of one repo share a
  fixed directory prefix);
* a MongoDB collection is a `List` of documents, with `find?` playing the
  role of a `One` query on the given selector.
-/

set_option autoImplicit false

namespace DexStore

/-- Error kinds surfaced by the session-key repositories.  `notFound` is the
backend's own key-not-found error (etcd `ErrorCodeKeyNotFound`, mgo
`ErrNotFound`) returned verbatim by `get`/`Find`; `invalidSessionKey` is the
repo's `errors.New("invalid session key")`; `popFailed` is the mongo
`errors.New("failed to pop entity")`; `nodeExists` is etcd's error for a
`Create`/`PrevNoExist` write on an existing node. -/
inductive SKErr where
  | notFound
  | invalidSessionKey
  | popFailed
  | nodeExists
deriving Repr, DecidableEq

/-- `sessionKeyModel` from `src/db/etcd/session.go` (etcd) and
`src/unnamed/part_000` (mongodb): fields Key, SessionID, ExpiresAt, Stale.
`expiresAt` is the Unix-seconds value stored by both backends. -/
structure SessionKeyModel where
  key : String
  sessionID : String
  expiresAt : Int
  stale : Bool
deriving Repr, DecidableEq

/-- Lookup of an etcd node by its path (models `kAPI.Get`). -/
def etcdLookup {α : Type} (store : List (String × α)) (k : String) : Option α :=
  match store.find? (fun p => p.1 == k) with
  | some p => some p.2
  | none => none

/-- Unconditional etcd write (models `kAPI.Set` without a `PrevExist` guard):
replaces the value at the path, or appends a new node. -/
def etcdWrite {α : Type} (store : List (String × α)) (k : String) (v : α) :
    List (String × α) :=
  match store with
  | [] => [(k, v)]
  | p :: rest => if p.1 = k then (k, v) :: rest else p :: etcdWrite rest k v

namespace EtcdSessionKey

/-- `sessionKeyRepo.get` in `src/db/etcd/session.go`: a missing node makes
`kAPI.Get` fail and that error is returned as is. -/
def get (store : List (String × SessionKeyModel)) (k : String) :
    Except SKErr SessionKeyModel :=
  match etcdLookup store k with
  | none => .error .notFound
  | some skm => .ok skm

/-- The read half of `sessionKeyRepo.Pop` (`src/db/etcd/session.go` lines
220-228): load the model, then reject it when it is stale or when
`ExpiresAt < clock.Now().Unix()`. -/
def popRead (now : Int) (store : List (String × SessionKeyModel)) (k : String) :
    Except SKErr SessionKeyModel :=
  match get store k with
  | .error e => .error e
  | .ok skm =>
    if skm.stale = true ∨ skm.expiresAt < now then .error .invalidSessionKey
    else .ok skm

/-- The write half of `sessionKeyRepo.Pop` (lines 230-242): marshal the model
with `Stale = true` and store it with `SetOptions{PrevExist: PrevExist}`,
i.e. the write is guarded only on the node existing, not on its contents. -/
def popWrite (store : List (String × SessionKeyModel)) (skm : SessionKeyModel) :
    Except SKErr String × List (String × SessionKeyModel) :=
  let skm2 := { skm with stale := true }
  match etcdLookup store skm2.key with
  | none => (.error .notFound, store)
  | some _ => (.ok skm2.sessionID, etcdWrite store skm2.key skm2)

/-- `sessionKeyRepo.Pop` run as one uninterrupted call: the read half followed
by the write half. -/
def Pop (now : Int) (store : List (String × SessionKeyModel)) (k : String) :
    Except SKErr String × List (String × SessionKeyModel) :=
  match popRead now store k with
  | .error e => (.error e, store)
  | .ok skm => popWrite store skm

/-- `sessionKeyRepo.Push` (`src/db/etcd/session.go` lines 245-261): store a
fresh model expiring at `now + ttl`, with `PrevExist: PrevNoExist` so an
existing node makes the write fail. -/
def Push (now : Int) (store : List (String × SessionKeyModel))
    (k sid : String) (ttl : Int) :
    Except SKErr (List (String × SessionKeyModel)) :=
  let skm : SessionKeyModel :=
    { key := k, sessionID := sid, expiresAt := now + ttl, stale := false }
  match etcdLookup store skm.key with
  | some _ => .error .nodeExists
  | none => .ok (etcdWrite store skm.key skm)

end EtcdSessionKey

namespace MongoSessionKey

/-- The document written by `cc.Update(bson.M{"stale": false, "key": key},
bson.M{"stale": true})` in `src/unnamed/part_000` line 590: an update document
without operators replaces the matched document wholesale, so the key,
session id and expiry fields revert to their zero values. -/
def staleReplacement : SessionKeyModel :=
  { key := "", sessionID := "", expiresAt := 0, stale := true }

/-- The conditional update of `sessionKeyRepo.Pop` (mongodb): replace the
first document matching `{stale: false, key: key}`; `none` models
`mgo.ErrNotFound` when no document matches. -/
def updateNotStale (col : List SessionKeyModel) (k : String) :
    Option (List SessionKeyModel) :=
  match col with
  | [] => none
  | m :: rest =>
    if m.stale = false ∧ m.key = k then some (staleReplacement :: rest)
    else
      match updateNotStale rest k with
      | some rest2 => some (m :: rest2)
      | none => none

/-- `sessionKeyRepo.Pop` from `src/unnamed/part_000` lines 580-595: find the
document by key (its absence surfaces the backend error), reject stale or
expired keys, then run the conditional stale-marking update. -/
def Pop (now : Int) (col : List SessionKeyModel) (k : String) :
    Except SKErr String × List SessionKeyModel :=
  match col.find? (fun m => m.key == k) with
  | none => (.error .notFound, col)
  | some skm =>
    if skm.stale = true ∨ skm.expiresAt < now then (.error .invalidSessionKey, col)
    else
      match updateNotStale col k with
      | some col2 => (.ok skm.sessionID, col2)
      | none => (.error .popFailed, col)

/-- `sessionKeyRepo.Push` (mongodb): insert a fresh document expiring at
`now + ttl`. -/
def Push (now : Int) (col : List SessionKeyModel) (k sid : String) (ttl : Int) :
    List SessionKeyModel :=
  col ++ [{ key := k, sessionID := sid, expiresAt := now + ttl, stale := false }]

end MongoSessionKey

end DexStore

namespace DexStore

theorem etcd_sessionKey_pop_fresh (now e : Int) (k sid : String) (h : ¬ e < now) :
    EtcdSessionKey.Pop now [(k, ⟨k, sid, e, false⟩)] k
      = (.ok sid, [(k, ⟨k, sid, e, true⟩)]) := by
  simp [EtcdSessionKey.Pop, EtcdSessionKey.popRead, EtcdSessionKey.get,
    EtcdSessionKey.popWrite, etcdLookup, etcdWrite, List.find?, h]

theorem etcd_sessionKey_pop_stale (now e : Int) (k sid : String) :
    EtcdSessionKey.Pop now [(k, ⟨k, sid, e, true⟩)] k
      = (.error .invalidSessionKey, [(k, ⟨k, sid, e, true⟩)]) := by
  simp [EtcdSessionKey.Pop, EtcdSessionKey.popRead, EtcdSessionKey.get,
    etcdLookup, List.find?]

theorem etcd_sessionKey_pop_expired (now e : Int) (k sid : String) (h : e < now) :
    EtcdSessionKey.Pop now [(k, ⟨k, sid, e, false⟩)] k
      = (.error .invalidSessionKey, [(k, ⟨k, sid, e, false⟩)]) := by
  simp [EtcdSessionKey.Pop, EtcdSessionKey.popRead, EtcdSessionKey.get,
    etcdLookup, List.find?, h]

theorem mongo_sessionKey_pop_fresh (now e : Int) (k sid : String)
    (h : ¬ e < now) :
    MongoSessionKey.Pop now [⟨k, sid, e, false⟩] k
      = (.ok sid, [MongoSessionKey.staleReplacement]) := by
  simp [MongoSessionKey.Pop, MongoSessionKey.updateNotStale, List.find?, h]

theorem mongo_sessionKey_pop_expired (now e : Int) (k sid : String) (h : e < now) :
    MongoSessionKey.Pop now [⟨k, sid, e, false⟩] k
      = (.error .invalidSessionKey, [⟨k, sid, e, false⟩]) := by
  simp [MongoSessionKey.Pop, List.find?, h]

theorem mongo_sessionKey_pop_after_replacement (now : Int) (k : String) (hk : k ≠ "") :
    MongoSessionKey.Pop now [MongoSessionKey.staleReplacement] k
      = (.error .notFound, [MongoSessionKey.staleReplacement]) := by
  have hbeq : ("" == k) = false := beq_eq_false_iff_ne.mpr (Ne.symm hk)
  simp [MongoSessionKey.Pop, MongoSessionKey.staleReplacement, List.find?, hbeq]

end DexStore

namespace DexStore

/-- C1 counterexample: `Pop` on an absent session key does not fail with the
`invalid session key` error.  Both backends surface their storage layer's
own not-found error instead (`sessionKeyRepo.get` returns the `kAPI.Get`
error unchanged; the mongo `Pop` returns the `Find(...).One` error
unchanged), refuting the claim that a missing key yields
`InvalidSessionKey`. -/
theorem sessionKey_pop_absent_counterexample :
    (EtcdSessionKey.Pop 0 [] "k").1 = .error .notFound
    ∧ (MongoSessionKey.Pop 0 [] "k").1 = .error .notFound
    ∧ SKErr.notFound ≠ SKErr.invalidSessionKey := by
  refine ⟨rfl, rfl, by decide⟩

/-- C1 (amended): popping an absent key fails with the backend not-found
error; a fresh unexpired key pops to the Push-bound sessionID; a second Pop
of the same key is rejected — with `InvalidSessionKey` on etcd, but with the
backend not-found error on mongodb (the stale-marking update replaced the
whole document, erasing its key field); Pop past expiry fails with
`InvalidSessionKey`. -/
theorem sessionKey_pop_single_use (now ttl t : Int) (k sid : String)
    (s1 : List (String × SessionKeyModel))
    (hk : k ≠ "") (httl : 0 ≤ ttl) (ht : now + ttl < t)
    (hpush : EtcdSessionKey.Push now [] k sid ttl = .ok s1) :
    (EtcdSessionKey.Pop now [] k).1 = .error .notFound
    ∧ (MongoSessionKey.Pop now [] k).1 = .error .notFound
    ∧ (EtcdSessionKey.Pop now s1 k).1 = .ok sid
    ∧ (EtcdSessionKey.Pop now (EtcdSessionKey.Pop now s1 k).2 k).1
        = .error .invalidSessionKey
    ∧ (EtcdSessionKey.Pop t s1 k).1 = .error .invalidSessionKey
    ∧ (MongoSessionKey.Pop now (MongoSessionKey.Push now [] k sid ttl) k).1 = .ok sid
    ∧ (MongoSessionKey.Pop now
         (MongoSessionKey.Pop now (MongoSessionKey.Push now [] k sid ttl) k).2 k).1
        = .error .notFound
    ∧ (MongoSessionKey.Pop t (MongoSessionKey.Push now [] k sid ttl) k).1
        = .error .invalidSessionKey := by
  have hs1 : s1 = [(k, ⟨k, sid, now + ttl, false⟩)] := by
    simpa [EtcdSessionKey.Push, etcdLookup, etcdWrite, List.find?, Eq.comm]
      using hpush
  subst hs1
  have hfresh : ¬ now + ttl < now := by omega
  have hcol : MongoSessionKey.Push now [] k sid ttl
      = [⟨k, sid, now + ttl, false⟩] := rfl
  refine ⟨rfl, rfl, ?_, ?_, ?_, ?_, ?_, ?_⟩
  · rw [etcd_sessionKey_pop_fresh now (now + ttl) k sid hfresh]
  · rw [etcd_sessionKey_pop_fresh now (now + ttl) k sid hfresh]
    rw [etcd_sessionKey_pop_stale]
  · rw [etcd_sessionKey_pop_expired t (now + ttl) k sid ht]
  · rw [hcol, mongo_sessionKey_pop_fresh now (now + ttl) k sid hfresh]
  · rw [hcol, mongo_sessionKey_pop_fresh now (now + ttl) k sid hfresh]
    rw [mongo_sessionKey_pop_after_replacement now k hk]
  · rw [hcol, mongo_sessionKey_pop_expired t (now + ttl) k sid ht]

/-- Witness for `sessionKey_pop_single_use` at now 0, ttl 60, read time 100,
key "k", session "s". -/
theorem sessionKey_pop_single_use_witness :
    (EtcdSessionKey.Pop 0 [] "k").1 = .error .notFound
    ∧ (MongoSessionKey.Pop 0 [] "k").1 = .error .notFound
    ∧ (EtcdSessionKey.Pop 0 [("k", ⟨"k", "s", 60, false⟩)] "k").1 = .ok "s"
    ∧ (EtcdSessionKey.Pop 0
         (EtcdSessionKey.Pop 0 [("k", ⟨"k", "s", 60, false⟩)] "k").2 "k").1
        = .error .invalidSessionKey
    ∧ (EtcdSessionKey.Pop 100 [("k", ⟨"k", "s", 60, false⟩)] "k").1
        = .error .invalidSessionKey
    ∧ (MongoSessionKey.Pop 0 (MongoSessionKey.Push 0 [] "k" "s" 60) "k").1 = .ok "s"
    ∧ (MongoSessionKey.Pop 0
         (MongoSessionKey.Pop 0 (MongoSessionKey.Push 0 [] "k" "s" 60) "k").2 "k").1
        = .error .notFound
    ∧ (MongoSessionKey.Pop 100 (MongoSessionKey.Push 0 [] "k" "s" 60) "k").1
        = .error .invalidSessionKey :=
  sessionKey_pop_single_use 0 60 100 "k" "s" [("k", ⟨"k", "s", 60, false⟩)]
    (by decide) (by decide) (by decide) rfl

/-- C2: the etcd `Pop` is a read followed by a write guarded only on node
existence (`PrevExist`), not a conditional update guarded on the key being
not stale.  Interleaving two Pops of the same fresh key as
read-A, read-B, write-A, write-B therefore lets both calls succeed and both
return the bound sessionID — a double redemption the claim (and the spec's
own concurrency requirement) rules out. -/
theorem etcd_sessionKey_pop_race_two_successes :
    (EtcdSessionKey.popRead 0 [("k", ⟨"k", "s", 10, false⟩)] "k"
        = .ok ⟨"k", "s", 10, false⟩)
    ∧ ((EtcdSessionKey.popWrite [("k", ⟨"k", "s", 10, false⟩)]
          ⟨"k", "s", 10, false⟩).1 = .ok "s")
    ∧ ((EtcdSessionKey.popWrite
          (EtcdSessionKey.popWrite [("k", ⟨"k", "s", 10, false⟩)]
            ⟨"k", "s", 10, false⟩).2
          ⟨"k", "s", 10, false⟩).1 = .ok "s") := by
  refine ⟨rfl, rfl, rfl⟩

end DexStore

namespace DexStore

/-- Error kinds of the session repositories: `notFound` is the backend's own
miss (etcd `kAPI.Get` error, `mgo.ErrNotFound`); `doesNotExist` is the repo's
`errors.New("session does not exist")` raised on the expiry re-check;
`nodeExists` is etcd's error for `kAPI.Create` on an existing node;
`duplicateKey` is mongo's duplicate-`_id` insert error. -/
inductive SessionErr where
  | notFound
  | doesNotExist
  | nodeExists
  | duplicateKey
deriving Repr, DecidableEq

/-- `sessionModel` from `src/db/etcd/session.go` lines 17-31 (the mongodb
model in `src/unnamed/part_000` has the same field set).  `redirectURL` holds
the `url.URL` in its printed form and `identity` the `oidc.Identity` in its
JSON form; both backends round-trip those strings without interpreting them,
and the `newSessionModel`/`session()` conversions are mutually inverse
identity maps on this representation (times are Unix seconds, with the Go
zero time mapped to 0). -/
structure SessionRecord where
  id : String
  state : String
  createdAt : Int
  expiresAt : Int
  clientID : String
  clientState : String
  redirectURL : String
  identity : String
  connectorID : String
  userID : String
  register : Bool
  nonce : String
  scope : List String
deriving Repr, DecidableEq

namespace EtcdSession

/-- `sessionRepo.insert` (`src/db/etcd/session.go` lines 160-167): the write
uses `kAPI.Create`, which fails when the node already exists. -/
def insert (store : List (String × SessionRecord)) (sm : SessionRecord) :
    Except SessionErr (List (String × SessionRecord)) :=
  match etcdLookup store sm.id with
  | some _ => .error .nodeExists
  | none => .ok (etcdWrite store sm.id sm)

/-- `sessionRepo.Create`: convert to the model and insert. -/
def Create (store : List (String × SessionRecord)) (s : SessionRecord) :
    Except SessionErr (List (String × SessionRecord)) :=
  insert store s

/-- `sessionRepo.Update` (`src/db/etcd/session.go` lines 152-158): identical
to `Create` — it also goes through `insert` and hence `kAPI.Create`. -/
def Update (store : List (String × SessionRecord)) (s : SessionRecord) :
    Except SessionErr (List (String × SessionRecord)) :=
  insert store s

/-- `sessionRepo.Get` (`src/db/etcd/session.go` lines 129-142): load the
model (a missing node surfaces the backend error), convert it, and reject it
when `ses.ExpiresAt.Before(clock.Now())`, i.e. strictly before now. -/
def Get (now : Int) (store : List (String × SessionRecord)) (id : String) :
    Except SessionErr SessionRecord :=
  match etcdLookup store id with
  | none => .error .notFound
  | some sm =>
    if sm.expiresAt < now then .error .doesNotExist
    else .ok sm

end EtcdSession

namespace MongoSession

/-- `sessionRepo.Get` from `src/unnamed/part_000` lines 516-531: `FindId`
surfaces `mgo.ErrNotFound` on a miss, then the same strict
`ExpiresAt.Before(now)` re-check runs on every read. -/
def Get (now : Int) (col : List SessionRecord) (id : String) :
    Except SessionErr SessionRecord :=
  match col.find? (fun m => m.id == id) with
  | none => .error .notFound
  | some sm =>
    if sm.expiresAt < now then .error .doesNotExist
    else .ok sm

/-- `sessionRepo.Create` (mongodb): `Insert`, which fails on a duplicate
`_id`. -/
def Create (col : List SessionRecord) (s : SessionRecord) :
    Except SessionErr (List SessionRecord) :=
  if col.any (fun m => m.id == s.id) then .error .duplicateKey
  else .ok (col ++ [s])

/-- `sessionRepo.Update` (mongodb): `UpdateId` replaces the document with the
matching `_id`, or fails with `mgo.ErrNotFound`. -/
def Update (col : List SessionRecord) (s : SessionRecord) :
    Except SessionErr (List SessionRecord) :=
  if col.any (fun m => m.id == s.id) then
    .ok (col.map (fun m => if m.id = s.id then s else m))
  else .error .notFound

end MongoSession

/-- C6 counterexample: a stored session read at the exact instant
`expiresAt = now` (here both 5) is returned successfully by both backends,
refuting the claim that `expiresAt <= now` is treated as nonexistent: the
code's re-check uses `ExpiresAt.Before(now)`, which is strict. -/
theorem session_get_boundary_counterexample :
    EtcdSession.Get 5 [("sid", ⟨"sid", "st", 1, 5, "c", "cs", "u", "i", "cn",
        "us", false, "n", []⟩)] "sid"
      = .ok ⟨"sid", "st", 1, 5, "c", "cs", "u", "i", "cn", "us", false, "n", []⟩
    ∧ MongoSession.Get 5 [⟨"sid", "st", 1, 5, "c", "cs", "u", "i", "cn",
        "us", false, "n", []⟩] "sid"
      = .ok ⟨"sid", "st", 1, 5, "c", "cs", "u", "i", "cn", "us", false, "n", []⟩
    ∧ (∀ e : SessionErr, (Except.ok (⟨"sid", "st", 1, 5, "c", "cs", "u", "i",
        "cn", "us", false, "n", []⟩ : SessionRecord) : Except SessionErr SessionRecord)
          ≠ .error e) :=
  ⟨rfl, rfl, fun _ h => Except.noConfusion h⟩

/-- C6 (amended): both session `Get`s re-evaluate expiry on every read, treating
a session with `expiresAt` strictly less than now as nonexistent (the repo's
session-does-not-exist error) and an absent id as the backend's not-found
error; at the boundary `expiresAt = now` the session is still returned. -/
theorem session_get_expiry_reevaluated (now : Int)
    (store : List (String × SessionRecord)) (col : List SessionRecord)
    (id : String) (sm sm2 : SessionRecord)
    (he : etcdLookup store id = some sm)
    (hm : col.find? (fun m => m.id == id) = some sm2) :
    (sm.expiresAt < now → EtcdSession.Get now store id = .error .doesNotExist)
    ∧ (now ≤ sm.expiresAt → EtcdSession.Get now store id = .ok sm)
    ∧ (∀ j, etcdLookup store j = none →
        EtcdSession.Get now store j = .error .notFound)
    ∧ (sm2.expiresAt < now → MongoSession.Get now col id = .error .doesNotExist)
    ∧ (now ≤ sm2.expiresAt → MongoSession.Get now col id = .ok sm2) := by
  refine ⟨?_, ?_, ?_, ?_, ?_⟩
  · intro h; simp [EtcdSession.Get, he, h]
  · intro h; simp [EtcdSession.Get, he, not_lt.mpr h]
  · intro j hj; simp [EtcdSession.Get, hj]
  · intro h; simp [MongoSession.Get, hm, h]
  · intro h; simp [MongoSession.Get, hm, not_lt.mpr h]

/-- Witness for `session_get_expiry_reevaluated`: a single stored session with
expiry 10 read at time 7. -/
theorem session_get_expiry_reevaluated_witness :
    ((⟨"sid", "st", 1, 10, "c", "cs", "u", "i", "cn", "us", false, "n",
        []⟩ : SessionRecord).expiresAt < 7 →
      EtcdSession.Get 7 [("sid", ⟨"sid", "st", 1, 10, "c", "cs", "u", "i", "cn",
        "us", false, "n", []⟩)] "sid" = .error .doesNotExist)
    ∧ (7 ≤ (⟨"sid", "st", 1, 10, "c", "cs", "u", "i", "cn", "us", false, "n",
        []⟩ : SessionRecord).expiresAt →
      EtcdSession.Get 7 [("sid", ⟨"sid", "st", 1, 10, "c", "cs", "u", "i", "cn",
        "us", false, "n", []⟩)] "sid"
        = .ok ⟨"sid", "st", 1, 10, "c", "cs", "u", "i", "cn", "us", false, "n", []⟩)
    ∧ (∀ j, etcdLookup [("sid", (⟨"sid", "st", 1, 10, "c", "cs", "u", "i", "cn",
        "us", false, "n", []⟩ : SessionRecord))] j = none →
      EtcdSession.Get 7 [("sid", ⟨"sid", "st", 1, 10, "c", "cs", "u", "i", "cn",
        "us", false, "n", []⟩)] j = .error .notFound)
    ∧ ((⟨"sid", "st", 1, 10, "c", "cs", "u", "i", "cn", "us", false, "n",
        []⟩ : SessionRecord).expiresAt < 7 →
      MongoSession.Get 7 [⟨"sid", "st", 1, 10, "c", "cs", "u", "i", "cn", "us",
        false, "n", []⟩] "sid" = .error .doesNotExist)
    ∧ (7 ≤ (⟨"sid", "st", 1, 10, "c", "cs", "u", "i", "cn", "us", false, "n",
        []⟩ : SessionRecord).expiresAt →
      MongoSession.Get 7 [⟨"sid", "st", 1, 10, "c", "cs", "u", "i", "cn", "us",
        false, "n", []⟩] "sid"
        = .ok ⟨"sid", "st", 1, 10, "c", "cs", "u", "i", "cn", "us", false, "n", []⟩) :=
  session_get_expiry_reevaluated 7 _ _ "sid" _ _ rfl rfl

/-- C7: the etcd `sessionRepo.Update` goes through `insert`, whose write is
`kAPI.Create` with implicit `PrevNoExist`; updating a session that was just
created therefore always fails with the node-exists error and leaves the
store unchanged, while the mongodb `Update` (an `UpdateId`) replaces the
record and a subsequent unexpired `Get` returns the updated session verbatim.
The claim that `Update` of an existing session succeeds and replaces the
stored record is contradicted by the etcd backend. -/
theorem etcd_session_update_never_updates :
    EtcdSession.Create []
        ⟨"sid", "st", 1, 10, "c", "cs", "u", "i", "cn", "us", false, "n", []⟩
      = .ok [("sid", ⟨"sid", "st", 1, 10, "c", "cs", "u", "i", "cn", "us",
          false, "n", []⟩)]
    ∧ EtcdSession.Update
        [("sid", ⟨"sid", "st", 1, 10, "c", "cs", "u", "i", "cn", "us",
          false, "n", []⟩)]
        ⟨"sid", "st2", 1, 10, "c", "cs", "u", "i", "cn", "us", false, "n", []⟩
      = .error .nodeExists
    ∧ MongoSession.Update
        [⟨"sid", "st", 1, 10, "c", "cs", "u", "i", "cn", "us", false, "n", []⟩]
        ⟨"sid", "st2", 1, 10, "c", "cs", "u", "i", "cn", "us", false, "n", []⟩
      = .ok [⟨"sid", "st2", 1, 10, "c", "cs", "u", "i", "cn", "us", false, "n", []⟩]
    ∧ MongoSession.Get 9
        [⟨"sid", "st2", 1, 10, "c", "cs", "u", "i", "cn", "us", false, "n", []⟩]
        "sid"
      = .ok ⟨"sid", "st2", 1, 10, "c", "cs", "u", "i", "cn", "us", false, "n", []⟩ := by
  refine ⟨rfl, rfl, ?_, rfl⟩
  simp [MongoSession.Update, List.any_cons]

end DexStore

namespace DexStore

/-- Error kinds of the refresh-token repositories (`refresh.ErrorInvalidToken`,
`refresh.ErrorInvalidUserID`, `refresh.ErrorInvalidClientID`, plus etcd's
node-exists error for `kAPI.Create` on a used token id). -/
inductive RTErr where
  | invalidToken
  | invalidUserID
  | invalidClientID
  | nodeExists
deriving Repr, DecidableEq

/-- `refreshTokenModel` from `src/db/etcd/refresh.go` lines 85-90 (the
mongodb model in `src/unnamed/part_000` is identical up to the id type):
token id, bcrypt hash of the payload, bound user and client ids.  The token
id is kept as a character list, payloads and hashes as byte lists. -/
structure RefreshTokenModel where
  id : List Char
  payloadHash : List Nat
  userID : String
  clientID : String
deriving Repr, DecidableEq

namespace Refresh

/-- Split a token at the first occurrence of the delimiter, as
`strings.SplitN(token, TokenDelimer, 2)` does; `none` models the
one-part result of a token without a delimiter. -/
def splitFirst (d : Char) : List Char → Option (List Char × List Char)
  | [] => none
  | c :: rest =>
    if c = d then some ([], rest)
    else
      match splitFirst d rest with
      | some (l, r) => some (c :: l, r)
      | none => none

/-- `buildToken` (`src/db/etcd/refresh.go` lines 101-103): token id, the
delimiter, then the base64url-encoded payload. -/
def buildToken (b64enc : List Nat → List Char) (d : Char)
    (tokenID : List Char) (payload : List Nat) : List Char :=
  tokenID ++ d :: b64enc payload

/-- `parseToken` (`src/db/etcd/refresh.go` lines 106-117): fewer than two
parts or an undecodable payload are both `ErrorInvalidToken`. -/
def parseToken (d : Char) (b64dec : List Char → Option (List Nat))
    (token : List Char) : Except RTErr (List Char × List Nat) :=
  match splitFirst d token with
  | none => .error .invalidToken
  | some (idPart, payloadPart) =>
    match b64dec payloadPart with
    | none => .error .invalidToken
    | some payload => .ok (idPart, payload)

/-- The record lookup shared by `Verify` and `Revoke`: etcd's
`refreshTokenRepo.get` maps a key-not-found to `ErrorInvalidToken`, mongo's
`FindId(...).One` failure is likewise returned as `ErrorInvalidToken`. -/
def rtLookup (store : List RefreshTokenModel) (tokenID : List Char) :
    Option RefreshTokenModel :=
  store.find? (fun m => m.id == tokenID)

/-- `refreshTokenRepo.Create` (`src/db/etcd/refresh.go` lines 138-168):
empty ids are rejected first; the freshly generated payload is hashed with
bcrypt, the record inserted (via `kAPI.Create`, which fails on an existing
node), and the composite token returned.  The generated token id and random
payload are passed in as parameters. -/
def Create (bhash : List Nat → List Nat) (b64enc : List Nat → List Char)
    (d : Char) (store : List RefreshTokenModel) (userID clientID : String)
    (tokenID : List Char) (payload : List Nat) :
    Except RTErr (List Char) × List RefreshTokenModel :=
  if userID = "" then (.error .invalidUserID, store)
  else if clientID = "" then (.error .invalidClientID, store)
  else
    let record : RefreshTokenModel :=
      { id := tokenID, payloadHash := bhash payload
        userID := userID, clientID := clientID }
    match rtLookup store tokenID with
    | some _ => (.error .nodeExists, store)
    | none => (.ok (buildToken b64enc d tokenID payload), store ++ [record])

/-- `refreshTokenRepo.Verify` (`src/db/etcd/refresh.go` lines 170-191):
parse, load by token id, check the client id, then the payload hash
(`checkTokenPayload`: a bcrypt mismatch is `ErrorInvalidToken`), and return
the bound user id. -/
def Verify (bcheck : List Nat → List Nat → Bool) (d : Char)
    (b64dec : List Char → Option (List Nat)) (store : List RefreshTokenModel)
    (clientID : String) (token : List Char) : Except RTErr String :=
  match parseToken d b64dec token with
  | .error e => .error e
  | .ok (tokenID, payload) =>
    match rtLookup store tokenID with
    | none => .error .invalidToken
    | some record =>
      if record.clientID ≠ clientID then .error .invalidClientID
      else if bcheck record.payloadHash payload then .ok record.userID
      else .error .invalidToken

/-- `refreshTokenRepo.Revoke` (`src/db/etcd/refresh.go` lines 193-214): same
parse and load, then the user-id ownership check, the payload-hash check, and
finally deletion of the record. -/
def Revoke (bcheck : List Nat → List Nat → Bool) (d : Char)
    (b64dec : List Char → Option (List Nat)) (store : List RefreshTokenModel)
    (userID : String) (token : List Char) :
    Except RTErr Unit × List RefreshTokenModel :=
  match parseToken d b64dec token with
  | .error e => (.error e, store)
  | .ok (tokenID, payload) =>
    match rtLookup store tokenID with
    | none => (.error .invalidToken, store)
    | some record =>
      if record.userID ≠ userID then (.error .invalidUserID, store)
      else if bcheck record.payloadHash payload then
        (.ok (), store.filter (fun m => m.id != record.id))
      else (.error .invalidToken, store)

theorem splitFirst_of_append (d : Char) (pre post : List Char) (h : d ∉ pre) :
    splitFirst d (pre ++ d :: post) = some (pre, post) := by
  induction pre with
  | nil => simp [splitFirst]
  | cons c rest ih =>
    have hc : c ≠ d := by
      intro hcd
      exact h (by simp [hcd])
    have hrest : d ∉ rest := fun hm => h (List.mem_cons_of_mem c hm)
    simp [splitFirst, hc, ih hrest]

theorem parseToken_buildToken (d : Char) (b64enc : List Nat → List Char)
    (b64dec : List Char → Option (List Nat)) (tokenID : List Char)
    (payload : List Nat) (hd : d ∉ tokenID)
    (hdec : b64dec (b64enc payload) = some payload) :
    parseToken d b64dec (buildToken b64enc d tokenID payload)
      = .ok (tokenID, payload) := by
  simp [parseToken, buildToken, splitFirst_of_append d tokenID _ hd, hdec]

theorem rtLookup_append_self (store : List RefreshTokenModel)
    (record : RefreshTokenModel) (h : rtLookup store record.id = none) :
    rtLookup (store ++ [record]) record.id = some record := by
  unfold rtLookup at h ⊢
  induction store with
  | nil => simp [List.find?]
  | cons m rest ih =>
    rw [List.find?] at h
    cases hm : (m.id == record.id) with
    | true => rw [hm] at h; exact absurd h (by simp)
    | false =>
      rw [hm] at h
      simpa [List.find?, hm] using ih h

theorem rtLookup_filter_ne (store : List RefreshTokenModel)
    (tokenID : List Char) :
    rtLookup (store.filter (fun m => m.id != tokenID)) tokenID = none := by
  unfold rtLookup
  rw [List.find?_eq_none]
  intro m hm
  have := (List.mem_filter.mp hm).2
  simpa [bne] using this

end Refresh

end DexStore

namespace DexStore

/-- C3: a successful refresh-token `Create(u, c)` (non-empty ids, fresh token
id, ideal bcrypt and base64url as hypotheses) yields a token that `Verify`
accepts for client `c`, returning `u`; `Verify` under any other client id
fails with `InvalidClientID`; and `Verify` of a token whose payload part was
mutated fails with `InvalidToken`, whether the mutated payload no longer
decodes or decodes to a payload that no longer matches the stored hash. -/
theorem refresh_create_verify_roundtrip
    (bhash : List Nat → List Nat) (bcheck : List Nat → List Nat → Bool)
    (b64enc : List Nat → List Char) (b64dec : List Char → Option (List Nat))
    (d : Char) (store : List RefreshTokenModel) (u c : String)
    (tid : List Char) (p : List Nat)
    (hu : u ≠ "") (hc : c ≠ "")
    (hfresh : Refresh.rtLookup store tid = none)
    (hd : d ∉ tid)
    (hdec : b64dec (b64enc p) = some p)
    (hok : bcheck (bhash p) p = true)
    (hne : ∀ q : List Nat, q ≠ p → bcheck (bhash p) q = false) :
    ∃ t store1,
      Refresh.Create bhash b64enc d store u c tid p = (.ok t, store1)
      ∧ Refresh.Verify bcheck d b64dec store1 c t = .ok u
      ∧ (∀ c2, c2 ≠ c →
          Refresh.Verify bcheck d b64dec store1 c2 t = .error .invalidClientID)
      ∧ (∀ body, b64dec body = none →
          Refresh.Verify bcheck d b64dec store1 c (tid ++ d :: body)
            = .error .invalidToken)
      ∧ (∀ body q, b64dec body = some q → q ≠ p →
          Refresh.Verify bcheck d b64dec store1 c (tid ++ d :: body)
            = .error .invalidToken) := by
  refine ⟨Refresh.buildToken b64enc d tid p,
    store ++ [⟨tid, bhash p, u, c⟩], ?_, ?_, ?_, ?_, ?_⟩
  · simp [Refresh.Create, hu, hc, hfresh]
  · have hlook : Refresh.rtLookup (store ++ [⟨tid, bhash p, u, c⟩]) tid
        = some ⟨tid, bhash p, u, c⟩ :=
      Refresh.rtLookup_append_self store ⟨tid, bhash p, u, c⟩ hfresh
    simp [Refresh.Verify,
      Refresh.parseToken_buildToken d b64enc b64dec tid p hd hdec, hlook, hok]
  · intro c2 hc2
    have hlook : Refresh.rtLookup (store ++ [⟨tid, bhash p, u, c⟩]) tid
        = some ⟨tid, bhash p, u, c⟩ :=
      Refresh.rtLookup_append_self store ⟨tid, bhash p, u, c⟩ hfresh
    have hne2 : c ≠ c2 := Ne.symm hc2
    simp [Refresh.Verify,
      Refresh.parseToken_buildToken d b64enc b64dec tid p hd hdec, hlook, hne2]
  · intro body hbody
    simp [Refresh.Verify, Refresh.parseToken,
      Refresh.splitFirst_of_append d tid body hd, hbody]
  · intro body q hbody hq
    have hlook : Refresh.rtLookup (store ++ [⟨tid, bhash p, u, c⟩]) tid
        = some ⟨tid, bhash p, u, c⟩ :=
      Refresh.rtLookup_append_self store ⟨tid, bhash p, u, c⟩ hfresh
    simp [Refresh.Verify, Refresh.parseToken,
      Refresh.splitFirst_of_append d tid body hd, hbody, hlook, hne q hq]

/-- Witness for `refresh_create_verify_roundtrip`: identity bcrypt model,
shift-by-97 base64url model, delimiter the slash character, user "u",
client "c", token id "a", payload bytes 1 and 2. -/
theorem refresh_create_verify_roundtrip_witness :
    ∃ t store1,
      Refresh.Create (fun q => q) (fun q => q.map (fun n => Char.ofNat (n + 97)))
          (Char.ofNat 47) [] "u" "c" [Char.ofNat 97] [1, 2] = (.ok t, store1)
      ∧ Refresh.Verify (fun h q => h == q) (Char.ofNat 47)
          (fun s => some (s.map (fun ch => ch.toNat - 97))) store1 "c" t = .ok "u"
      ∧ (∀ c2, c2 ≠ "c" →
          Refresh.Verify (fun h q => h == q) (Char.ofNat 47)
            (fun s => some (s.map (fun ch => ch.toNat - 97))) store1 c2 t
            = .error .invalidToken ∨
          Refresh.Verify (fun h q => h == q) (Char.ofNat 47)
            (fun s => some (s.map (fun ch => ch.toNat - 97))) store1 c2 t
            = .error .invalidClientID) := by
  obtain ⟨t, store1, h1, h2, h3, h4, h5⟩ :=
    refresh_create_verify_roundtrip (fun q => q) (fun h q => h == q)
      (fun q => q.map (fun n => Char.ofNat (n + 97)))
      (fun s => some (s.map (fun ch => ch.toNat - 97)))
      (Char.ofNat 47) [] "u" "c" [Char.ofNat 97] [1, 2]
      (by decide) (by decide) rfl (by decide) (by decide) (by decide)
      (fun q hq => beq_eq_false_iff_ne.mpr (Ne.symm hq))
  exact ⟨t, store1, h1, h2, fun c2 hc2 => Or.inr (h3 c2 hc2)⟩

/-- C4: for a stored refresh token, `Revoke` by any other user fails with
`InvalidUserID` and leaves the store unchanged; `Revoke` by the owner
succeeds and deletes the record; a second `Revoke` of the same token then
fails with `InvalidToken`. -/
theorem refresh_revoke_one_shot
    (bcheck : List Nat → List Nat → Bool)
    (b64enc : List Nat → List Char) (b64dec : List Char → Option (List Nat))
    (d : Char) (store : List RefreshTokenModel) (u c : String)
    (tid : List Char) (ph p : List Nat)
    (hstore : Refresh.rtLookup store tid = some ⟨tid, ph, u, c⟩)
    (hd : d ∉ tid) (hdec : b64dec (b64enc p) = some p)
    (hok : bcheck ph p = true) :
    (∀ u2, u2 ≠ u →
        Refresh.Revoke bcheck d b64dec store u2 (Refresh.buildToken b64enc d tid p)
          = (.error .invalidUserID, store))
    ∧ ∃ store1,
        Refresh.Revoke bcheck d b64dec store u (Refresh.buildToken b64enc d tid p)
          = (.ok (), store1)
        ∧ Refresh.rtLookup store1 tid = none
        ∧ Refresh.Revoke bcheck d b64dec store1 u (Refresh.buildToken b64enc d tid p)
          = (.error .invalidToken, store1) := by
  have hparse := Refresh.parseToken_buildToken d b64enc b64dec tid p hd hdec
  constructor
  · intro u2 hu2
    have hne2 : u ≠ u2 := Ne.symm hu2
    simp [Refresh.Revoke, hparse, hstore, hne2]
  · refine ⟨store.filter (fun m => m.id != tid), ?_, ?_, ?_⟩
    · simp [Refresh.Revoke, hparse, hstore, hok]
    · exact Refresh.rtLookup_filter_ne store tid
    · simp [Refresh.Revoke, hparse, Refresh.rtLookup_filter_ne store tid]

/-- Witness for `refresh_revoke_one_shot`: one stored record for user "u" and
client "c" with token id "a". -/
theorem refresh_revoke_one_shot_witness :
    (∀ u2, u2 ≠ "u" →
        Refresh.Revoke (fun h q => h == q) (Char.ofNat 47)
          (fun s => some (s.map (fun ch => ch.toNat - 97)))
          [⟨[Char.ofNat 97], [1, 2], "u", "c"⟩] u2
          (Refresh.buildToken (fun q => q.map (fun n => Char.ofNat (n + 97)))
            (Char.ofNat 47) [Char.ofNat 97] [1, 2])
          = (.error .invalidUserID, [⟨[Char.ofNat 97], [1, 2], "u", "c"⟩]))
    ∧ ∃ store1,
        Refresh.Revoke (fun h q => h == q) (Char.ofNat 47)
          (fun s => some (s.map (fun ch => ch.toNat - 97)))
          [⟨[Char.ofNat 97], [1, 2], "u", "c"⟩] "u"
          (Refresh.buildToken (fun q => q.map (fun n => Char.ofNat (n + 97)))
            (Char.ofNat 47) [Char.ofNat 97] [1, 2])
          = (.ok (), store1)
        ∧ Refresh.rtLookup store1 [Char.ofNat 97] = none
        ∧ Refresh.Revoke (fun h q => h == q) (Char.ofNat 47)
            (fun s => some (s.map (fun ch => ch.toNat - 97))) store1 "u"
            (Refresh.buildToken (fun q => q.map (fun n => Char.ofNat (n + 97)))
              (Char.ofNat 47) [Char.ofNat 97] [1, 2])
          = (.error .invalidToken, store1) := by
  have h := refresh_revoke_one_shot (fun h q => h == q)
    (fun q => q.map (fun n => Char.ofNat (n + 97)))
    (fun s => some (s.map (fun ch => ch.toNat - 97)))
    (Char.ofNat 47) [⟨[Char.ofNat 97], [1, 2], "u", "c"⟩] "u" "c"
    [Char.ofNat 97] [1, 2] [1, 2] rfl (by decide) (by decide) (by decide)
  exact h

end DexStore

namespace DexStore

/-- Error kinds of the private-key-set repositories: `key.ErrorNoKeys` for an
empty store and `db.ErrorCannotDecryptKeys` when no configured secret
decrypts the blob. -/
inductive PKErr where
  | noKeys
  | cannotDecryptKeys
deriving Repr, DecidableEq

namespace Keys

/-- The decryption loop of `PrivateKeySetRepo.Get` (`src/db/etcd/key.go`
lines 151-180, identically `src/unnamed/part_001` lines 125-153): try each
secret in order; a failure at any stage (decrypt, unmarshal, key
reconstruction — folded here into `decF` then `unmarshal`) moves on to the
next secret, and only when the final attempt also failed does the `err`
variable remain set, which the code reports as `CannotDecryptKeys`.  With no
secrets configured the loop never runs, `err` stays nil, and the nil key set
is returned as a success — hence the `Option α` in the result. -/
def getLoop {α : Type} (decF : List Nat → List Nat → Option (List Nat))
    (unmarshal : List Nat → Option α) (v : List Nat) :
    List (List Nat) → Except PKErr (Option α)
  | [] => .ok none
  | s :: rest =>
    match decF v s >>= unmarshal with
    | some ks => .ok (some ks)
    | none =>
      match rest with
      | [] => .error .cannotDecryptKeys
      | r :: rs => getLoop decF unmarshal v (r :: rs)

/-- `PrivateKeySetRepo.Get`: a missing blob is `NoKeys` (etcd: key-not-found
from `kAPI.Get`; mongo: empty collection), otherwise the decryption loop
runs over the configured secrets. -/
def Get {α : Type} (decF : List Nat → List Nat → Option (List Nat))
    (unmarshal : List Nat → Option α) (secrets : List (List Nat))
    (blob : Option (List Nat)) : Except PKErr (Option α) :=
  match blob with
  | none => .error .noKeys
  | some v => getLoop decF unmarshal v secrets

/-- `PrivateKeySetRepo.Set` (`src/db/etcd/key.go` lines 100-134, identically
`src/unnamed/part_001` lines 79-110): the existing blob is deleted (etcd
`Delete`, mongo `DropCollection`) regardless of its contents, and the
serialized key set is written encrypted under `active()`, the first secret of
the configured list (`none` models the index panic of `active()` on an empty
list). -/
def Set {α : Type} (encF : List Nat → List Nat → List Nat)
    (marshal : α → List Nat) (secrets : List (List Nat))
    (_oldBlob : Option (List Nat)) (ks : α) : Option (List Nat) :=
  match secrets with
  | [] => none
  | a :: _ => some (encF (marshal ks) a)

end Keys

/-- `validKeySecrets`: the 32-byte check run over every supplied secret by
both `NewPrivateKeySetRepo` constructors. -/
def validKeySecrets : List (List Nat) → Bool
  | [] => true
  | s :: rest => s.length == 32 && validKeySecrets rest

/-- `NewPrivateKeySetRepo` from `src/db/etcd/key.go` lines 71-88: an empty
secret list is rejected first, then every secret must be exactly 32 bytes. -/
def etcdNewPrivateKeySetRepo (secrets : List (List Nat)) :
    Except String (List (List Nat)) :=
  if secrets.length = 0 then .error "must provide at least one key secret"
  else if validKeySecrets secrets then .ok secrets
  else .error "expected 32-byte secret"

/-- `MongoDBDriver.NewPrivateKeySetRepo` from `src/db/mongodb/mongodb.go`
lines 117-129: only the per-secret 32-byte check is performed; there is no
emptiness check. -/
def mongoNewPrivateKeySetRepo (secrets : List (List Nat)) :
    Except String (List (List Nat)) :=
  if validKeySecrets secrets then .ok secrets
  else .error "expected 32-byte secret"

/-- C5: under an authenticated-encryption model (decryption succeeds exactly
under the encrypting secret), `Set` with secret list headed by A encrypts
the marshalled key set under A and replaces any previous blob; `Get` with
secret list [B, A] recovers the original key set; `Get` with [C] alone fails
with `CannotDecryptKeys`; and `Get` on an empty store fails with `NoKeys`,
which is distinct from `CannotDecryptKeys`. -/
theorem keyset_rotation_roundtrip {α : Type}
    (encF : List Nat → List Nat → List Nat)
    (decF : List Nat → List Nat → Option (List Nat))
    (marshal : α → List Nat) (unmarshal : List Nat → Option α)
    (rest : List (List Nat)) (oldBlob : Option (List Nat))
    (A B C : List Nat) (ks : α)
    (hBA : B ≠ A) (hCA : C ≠ A)
    (hdec : decF (encF (marshal ks) A) A = some (marshal ks))
    (hbad : ∀ k2, k2 ≠ A → decF (encF (marshal ks) A) k2 = none)
    (hrt : unmarshal (marshal ks) = some ks) :
    ∃ blob, Keys.Set encF marshal (A :: rest) oldBlob ks = some blob
      ∧ Keys.Get decF unmarshal [B, A] (some blob) = .ok (some ks)
      ∧ Keys.Get decF unmarshal [C] (some blob) = .error .cannotDecryptKeys
      ∧ Keys.Get decF unmarshal [B, A] (none : Option (List Nat))
          = (.error .noKeys : Except PKErr (Option α))
      ∧ PKErr.noKeys ≠ PKErr.cannotDecryptKeys := by
  refine ⟨encF (marshal ks) A, rfl, ?_, ?_, rfl, by decide⟩
  · simp [Keys.Get, Keys.getLoop, hbad B hBA, hdec, hrt, Option.bind]
  · simp [Keys.Get, Keys.getLoop, hbad C hCA, Option.bind]

/-- A toy authenticated-encryption scheme for the rotation witness: the
ciphertext records the secret's length, the secret itself, then the
plaintext. -/
def encW (p k : List Nat) : List Nat :=
  k.length :: (k ++ p)

/-- Decryption for `encW`: succeeds exactly when the embedded secret matches
the supplied one. -/
def decW (v k : List Nat) : Option (List Nat) :=
  match v with
  | [] => none
  | n :: r =>
    if n = k.length ∧ r.take k.length = k then some (r.drop k.length)
    else none

theorem decW_encW (p k : List Nat) : decW (encW p k) k = some p := by
  simp [decW, encW, List.take_left, List.drop_left]

theorem decW_encW_ne (p k k2 : List Nat) (h : k2 ≠ k) :
    decW (encW p k) k2 = none := by
  simp only [decW, encW]
  rw [if_neg]
  rintro ⟨h1, h2⟩
  rw [← h1, List.take_left] at h2
  exact h h2.symm

/-- Witness for `keyset_rotation_roundtrip`: key sets are bare naturals,
marshalling wraps them into singleton lists, and `encW`/`decW` provide the
authenticated encryption; secrets A, B, C are [0], [1], [2]. -/
theorem keyset_rotation_roundtrip_witness :
    ∃ blob, Keys.Set encW (fun n : Nat => [n]) [[0]] none 42 = some blob
      ∧ Keys.Get decW (fun l => l.head?) [[1], [0]] (some blob) = .ok (some 42)
      ∧ Keys.Get decW (fun l => l.head?) [[2]] (some blob)
          = .error .cannotDecryptKeys
      ∧ Keys.Get decW (fun l => l.head?) [[1], [0]] (none : Option (List Nat))
          = (.error .noKeys : Except PKErr (Option Nat))
      ∧ PKErr.noKeys ≠ PKErr.cannotDecryptKeys := by
  have h := keyset_rotation_roundtrip encW decW
    (fun n : Nat => [n]) (fun l => l.head?) [] none
    [0] [1] [2] 42 (by decide) (by decide) (decW_encW [42] [0])
    (fun k2 hk2 => decW_encW_ne [42] [0] k2 hk2) rfl
  exact h

end DexStore

namespace DexStore

/-- C10: the mongodb `NewPrivateKeySetRepo` accepts an empty secret list and
returns a repository with nil error, although the etcd constructor rejects it
and the repository's own test (`src/db/mongodb/key_test.go`,
`TestNewPrivateKeySetRepoInvalidKey`) demands a non-nil error for the
zero-secret call; the 32-byte per-secret check (the test's 6-byte "sharks"
secret) is enforced by both. -/
theorem mongo_newPrivateKeySetRepo_zero_secrets :
    mongoNewPrivateKeySetRepo [] = .ok []
    ∧ etcdNewPrivateKeySetRepo [] = .error "must provide at least one key secret"
    ∧ mongoNewPrivateKeySetRepo [List.replicate 6 0]
        = .error "expected 32-byte secret"
    ∧ etcdNewPrivateKeySetRepo [List.replicate 6 0]
        = .error "expected 32-byte secret"
    ∧ mongoNewPrivateKeySetRepo [List.replicate 32 0] = .ok [List.replicate 32 0]
    ∧ etcdNewPrivateKeySetRepo [List.replicate 32 0]
        = .ok [List.replicate 32 0] := by
  refine ⟨rfl, rfl, rfl, rfl, rfl, rfl⟩

/-- `clientIdentityRepo.Authenticate` from `src/unnamed/part_000` lines
334-357 (identically `src/db/etcd/client.go`): load the stored bcrypt hash by
client id (a miss is `(false, nil)`), base64url-decode the transport secret
(a decode failure is `(false, nil)`), reject decoded secrets longer than
`maxSecretLength = 72` bytes with `(false, nil)`, and otherwise report the
bcrypt comparison; the error component is nil on every one of these paths. -/
def Authenticate (bcheck : List Nat → List Nat → Bool)
    (b64dec : String → Option (List Nat))
    (store : List (String × List Nat)) (id secret : String) :
    Bool × Option String :=
  match etcdLookup store id with
  | none => (false, none)
  | some hashed =>
    match b64dec secret with
    | none => (false, none)
    | some dec =>
      if 72 < dec.length then (false, none)
      else (bcheck hashed dec, none)

/-- C8: `Authenticate` fails closed — a decoded secret longer than 72 bytes
yields `(false, nil)` (no error and never a match, whatever the stored hash
and comparison would say), and so do an undecodable secret and an unknown
client id. -/
theorem authenticate_fail_closed (bcheck : List Nat → List Nat → Bool)
    (b64dec : String → Option (List Nat))
    (store : List (String × List Nat)) (id secret : String) :
    (∀ dec, b64dec secret = some dec → 72 < dec.length →
        Authenticate bcheck b64dec store id secret = (false, none))
    ∧ (b64dec secret = none →
        Authenticate bcheck b64dec store id secret = (false, none))
    ∧ (etcdLookup store id = none →
        Authenticate bcheck b64dec store id secret = (false, none)) := by
  refine ⟨?_, ?_, ?_⟩
  · intro dec hdec hlen
    cases hstore : etcdLookup store id with
    | none => simp [Authenticate, hstore]
    | some hashed => simp [Authenticate, hstore, hdec, hlen]
  · intro hdec
    cases hstore : etcdLookup store id with
    | none => simp [Authenticate, hstore]
    | some hashed => simp [Authenticate, hstore, hdec]
  · intro hstore
    simp [Authenticate, hstore]

/-- Witness for `authenticate_fail_closed`: a stored client "c" whose decoded
secret is 73 zero bytes and whose comparison function would even report a
match — `Authenticate` still returns `(false, none)`. -/
theorem authenticate_fail_closed_witness :
    (∀ dec, (fun _ : String => some (List.replicate 73 0)) "s" = some dec →
        72 < dec.length →
        Authenticate (fun _ _ => true) (fun _ => some (List.replicate 73 0))
          [("c", [7])] "c" "s" = (false, none))
    ∧ ((fun _ : String => some (List.replicate 73 0)) "s" = none →
        Authenticate (fun _ _ => true) (fun _ => some (List.replicate 73 0))
          [("c", [7])] "c" "s" = (false, none))
    ∧ (etcdLookup [("c", [7])] "c" = none →
        Authenticate (fun _ _ => true) (fun _ => some (List.replicate 73 0))
          [("c", [7])] "c" "s" = (false, none)) := by
  have h := authenticate_fail_closed (fun _ _ => true)
    (fun _ => some (List.replicate 73 0)) [("c", [7])] "c" "s"
  exact h

end DexStore

namespace DexStore

/-- Error kinds of the user repository (`user.ErrorInvalidID`,
`user.ErrorDuplicateID`, `user.ErrorInvalidEmail`, `user.ErrorDuplicateEmail`,
`user.ErrorNotFound`). -/
inductive UserErr where
  | invalidID
  | duplicateID
  | invalidEmail
  | duplicateEmail
  | notFound
deriving Repr, DecidableEq

/-- `userModel` from `src/db/mongodb/user.go` lines 290-299, without the
remote-identities sub-collection (not involved in the claims settled here). -/
structure UserModel where
  id : String
  email : String
  emailVerified : Bool
  displayName : String
  disabled : Bool
  admin : Bool
  createdAt : Int
deriving Repr, DecidableEq

theorem find?_append_of_none {α : Type} (p : α → Bool) (l1 l2 : List α)
    (h : l1.find? p = none) : (l1 ++ l2).find? p = l2.find? p := by
  induction l1 with
  | nil => simp
  | cons a l ih =>
    rw [List.find?] at h
    cases hp : p a with
    | true => rw [hp] at h; exact absurd h (by simp)
    | false => rw [hp] at h; simpa [List.find?, hp] using ih h

namespace MongoUser

/-- `c.FindId(usr.ID).One(...)` over the user collection. -/
def FindId (col : List UserModel) (id : String) : Option UserModel :=
  col.find? (fun m => m.id == id)

/-- `userRepo.GetByEmail` (`src/db/mongodb/user.go` lines 97-107):
`Find({"email": email}).One`, `none` modelling `user.ErrorNotFound`. -/
def GetByEmail (col : List UserModel) (email : String) : Option UserModel :=
  col.find? (fun m => m.email == email)

/-- `userRepo.Create` (`src/db/mongodb/user.go` lines 51-80): empty id is
`InvalidID`; an existing user under the same id is `DuplicateID`; an email
failing `user.ValidEmail` (external to the store, passed as a predicate) is
`InvalidEmail`; an email already held by any user is `DuplicateEmail`;
otherwise the user is inserted. -/
def Create (validEmail : String → Bool) (col : List UserModel)
    (usr : UserModel) : Except UserErr (List UserModel) :=
  if usr.id = "" then .error .invalidID
  else
    match FindId col usr.id with
    | some _ => .error .duplicateID
    | none =>
      if validEmail usr.email = false then .error .invalidEmail
      else
        match GetByEmail col usr.email with
        | some _ => .error .duplicateEmail
        | none => .ok (col ++ [usr])

/-- `userRepo.Update` (`src/db/mongodb/user.go` lines 109-138): empty id is
`InvalidID`, invalid email `InvalidEmail`, an unknown id `NotFound`; an email
found on a different user is `DuplicateEmail`; otherwise `UpdateId` replaces
the record. -/
def Update (validEmail : String → Bool) (col : List UserModel)
    (usr : UserModel) : Except UserErr (List UserModel) :=
  if usr.id = "" then .error .invalidID
  else if validEmail usr.email = false then .error .invalidEmail
  else
    match FindId col usr.id with
    | none => .error .notFound
    | some _ =>
      match GetByEmail col usr.email with
      | some other =>
        if other.id ≠ usr.id then .error .duplicateEmail
        else .ok (col.map (fun m => if m.id = usr.id then usr else m))
      | none => .ok (col.map (fun m => if m.id = usr.id then usr else m))

end MongoUser

/-- C9: the user store's uniqueness checks — `Create` fails with
`DuplicateID` when the id is taken, `InvalidEmail` when the email fails
validation, and `DuplicateEmail` when another user holds the email;
`Update` fails with `DuplicateEmail` when the new email is found on a
different user; and a second `Create` with a fresh id but the same email as a
just-created user fails with `DuplicateEmail`. -/
theorem user_uniqueness (validEmail : String → Bool) (col : List UserModel)
    (usr other : UserModel) :
    (usr.id ≠ "" → (∃ m, MongoUser.FindId col usr.id = some m) →
        MongoUser.Create validEmail col usr = .error .duplicateID)
    ∧ (usr.id ≠ "" → MongoUser.FindId col usr.id = none →
        validEmail usr.email = false →
        MongoUser.Create validEmail col usr = .error .invalidEmail)
    ∧ (usr.id ≠ "" → MongoUser.FindId col usr.id = none →
        validEmail usr.email = true →
        (∃ m, MongoUser.GetByEmail col usr.email = some m) →
        MongoUser.Create validEmail col usr = .error .duplicateEmail)
    ∧ (usr.id ≠ "" → validEmail usr.email = true →
        (∃ m, MongoUser.FindId col usr.id = some m) →
        MongoUser.GetByEmail col usr.email = some other → other.id ≠ usr.id →
        MongoUser.Update validEmail col usr = .error .duplicateEmail)
    ∧ (usr.id ≠ "" → MongoUser.FindId col usr.id = none →
        validEmail usr.email = true →
        MongoUser.GetByEmail col usr.email = none →
        ∀ u2 : UserModel, u2.id ≠ "" → MongoUser.FindId col u2.id = none →
          u2.id ≠ usr.id → validEmail u2.email = true → u2.email = usr.email →
          MongoUser.Create validEmail col usr = .ok (col ++ [usr])
          ∧ MongoUser.Create validEmail (col ++ [usr]) u2
              = .error .duplicateEmail) := by
  refine ⟨?_, ?_, ?_, ?_, ?_⟩
  · rintro hid ⟨m, hm⟩
    simp [MongoUser.Create, hid, hm]
  · intro hid hnone hbad
    simp [MongoUser.Create, hid, hnone, hbad]
  · rintro hid hnone hval ⟨m, hm⟩
    simp [MongoUser.Create, hid, hnone, hval, hm]
  · rintro hid hval ⟨m, hm⟩ hemail hne
    simp [MongoUser.Update, hid, hval, hm, hemail, hne]
  · intro hid hnone hval hemail u2 hid2 hnone2 hne2 hval2 hsame
    have hcreate : MongoUser.Create validEmail col usr = .ok (col ++ [usr]) := by
      simp [MongoUser.Create, hid, hnone, hval, hemail]
    refine ⟨hcreate, ?_⟩
    have hfind2 : MongoUser.FindId (col ++ [usr]) u2.id = none := by
      unfold MongoUser.FindId at hnone2 ⊢
      rw [find?_append_of_none _ col [usr] hnone2]
      simp [List.find?, beq_eq_false_iff_ne.mpr (Ne.symm hne2)]
    have hemail2 : MongoUser.GetByEmail (col ++ [usr]) u2.email = some usr := by
      unfold MongoUser.GetByEmail at hemail ⊢
      rw [hsame, find?_append_of_none _ col [usr] hemail]
      simp [List.find?]
    simp [MongoUser.Create, hid2, hfind2, hval2, hemail2]

/-- Witness for `user_uniqueness`: a one-user collection, a second user with
the same email under a fresh id, and a third user with the first user's email
under its own id. -/
theorem user_uniqueness_witness :
    MongoUser.Create (fun e => e != "")
        [] ⟨"1", "a@b", false, "", false, false, 0⟩
        = .ok [⟨"1", "a@b", false, "", false, false, 0⟩]
      ∧ MongoUser.Create (fun e => e != "")
          [⟨"1", "a@b", false, "", false, false, 0⟩]
          ⟨"2", "a@b", false, "", false, false, 0⟩
        = .error .duplicateEmail := by
  have h := user_uniqueness (fun e => e != "") []
    (⟨"1", "a@b", false, "", false, false, 0⟩ : UserModel)
    (⟨"2", "a@b", false, "", false, false, 0⟩ : UserModel)
  have h5 := h.2.2.2.2 (by decide) rfl (by decide) rfl
    (⟨"2", "a@b", false, "", false, false, 0⟩ : UserModel)
    (by decide) rfl (by decide) (by decide) rfl
  exact h5

end DexStore
